import Mathlib

/-!
Shallow embedding of the vsn300-pvoutput telemetry daemon
(source: web_dashboard.py).

Conventions of the embedding:
* 16-bit register values are natural numbers; physical quantities are
  rationals.
* Python round(x, d) (banker's rounding to d decimal places) is modelled
  by pyRound d over the rationals.
* Wall-clock time is a rational number of seconds since the epoch;
  the local midnight of an instant t is 86400 * floor (t / 86400) and its
  calendar day index is floor (t / 86400).
* The baseline file energy_baseline.json is modelled as an
  Option Baseline value threaded through each poll cycle; the value none
  means the file does not exist.
* File system effects of save_state are modelled as a trace of
  operations (FsOp) interpreted over a map from paths to file contents.
-/

/-- Banker rounding of a rational to the nearest integer, ties to even,
mirroring the behaviour of Python round on exact midpoints. -/
def halfEvenRound (q : ℚ) : ℤ :=
  if q - ⌊q⌋ = 1 / 2 then (if ⌊q⌋ % 2 = 0 then ⌊q⌋ else ⌊q⌋ + 1) else round q

/-- Python round(q, d): round to d decimal digits. -/
def pyRound (d : ℕ) (q : ℚ) : ℚ :=
  (halfEvenRound (q * 10 ^ d) : ℚ) / 10 ^ d

/-- A decoded sample, the fields produced by the decode part of
read_legacy_block (web_dashboard.py lines 141-155). -/
structure Sample where
  ac_voltage : ℚ
  grid_freq_hz : ℚ
  inverter_temp_c : ℚ
  power_w : ℤ
  energy_lifetime_wh : ℚ
  status_code : ℕ
deriving DecidableEq

/-- The persisted baseline record, the content of energy_baseline.json:
a calendar-day index and the lifetime energy (Wh) recorded at the first
sample of that day. -/
structure Baseline where
  day : ℤ
  wh : ℚ
deriving DecidableEq

/-- One record of the chart history buffer (web_dashboard.py lines
292-296): timestamp, power in watts, energy-today in whole Wh. -/
structure HistoryRecord where
  timestamp : ℚ
  power_w : ℤ
  energy_wh : ℤ
deriving DecidableEq

/-- decode_status (web_dashboard.py lines 56-59): fixed lookup of the
device status code. -/
def decode_status (code : ℕ) : String × String :=
  if code = 0 then ("Off", "muted")
  else if code = 1 then ("Sleep", "sleep")
  else if code = 4 then ("ON", "ok")
  else if code = 5 then ("Fault", "error")
  else if code = 91 then ("ON", "ok")
  else if code = 92 then ("Sleep", "sleep")
  else ("Unknown", "muted")

/-- detect_night (web_dashboard.py lines 115-119): returns
(status_text, status_class, night_flag). -/
def detect_night (ac_voltage : Option ℚ) (inverter_connected : Bool) :
    String × String × Bool :=
  match inverter_connected, ac_voltage with
  | false, _ => ("Night", "night", true)
  | true, none => ("Night", "night", true)
  | true, some v =>
    if v < 100 then ("Night", "night", true) else ("ON", "ok", false)

/-- Signed interpretation of a 16-bit scale-factor register
(web_dashboard.py line 153): sf_reg if sf_reg < 32768 else sf_reg - 65536. -/
def sfSigned (sf_reg : ℕ) : ℤ :=
  if sf_reg < 32768 then (sf_reg : ℤ) else (sf_reg : ℤ) - 65536

/-- The decode part of read_legacy_block (web_dashboard.py lines 141-155).
The Python code indexes regs[0], regs[4], regs[6], regs[8], regs[14],
regs[15], regs[16], regs[26]; an empty register list or an IndexError
(block shorter than 27) is caught and yields no sample. -/
def decode_legacy (regs : List ℕ) : Option Sample :=
  if 27 ≤ regs.length then
    let sf : ℤ := sfSigned (regs.getD 16 0)
    let e_raw : ℕ := Nat.lor (Nat.shiftLeft (regs.getD 14 0) 16) (regs.getD 15 0)
    some
      { ac_voltage := pyRound 1 ((regs.getD 0 0 : ℚ) / 10)
        grid_freq_hz := pyRound 2 ((regs.getD 6 0 : ℚ) / 100)
        inverter_temp_c := pyRound 1 ((regs.getD 26 0 : ℚ) / 10)
        power_w := (regs.getD 4 0 : ℤ)
        energy_lifetime_wh := (e_raw : ℚ) * (10 : ℚ) ^ sf
        status_code := regs.getD 8 0 }
  else none

/-- The daily-energy baseline logic of read_legacy_block
(web_dashboard.py lines 157-192).  Takes the current baseline file
content (none when the file does not exist), the current day and the
decoded lifetime energy; returns energy-today (Wh) and the baseline file
content after the call.  When the file exists and holds today's day the
code returns max(0, e_wh - prev.wh) and leaves the file alone; when the
file is missing or holds another day the code writes {today, e_wh} and
returns 0. -/
def dailyEnergyWh (bl : Option Baseline) (today : ℤ) (e_wh : ℚ) :
    ℚ × Option Baseline :=
  match bl with
  | none => (0, some ⟨today, e_wh⟩)
  | some prev =>
    if prev.day = today then (max 0 (e_wh - prev.wh), some prev)
    else (0, some ⟨today, e_wh⟩)

/-- read_legacy_block (web_dashboard.py lines 134-209): decode the
register block if one was read, then run the baseline logic.  Returns
(the sample paired with energy-today, or none on failure) and the
baseline file content after the call.  A read failure or decode failure
leaves the baseline file untouched, since the Python exception fires
before the baseline code runs. -/
def read_legacy_block (regs : Option (List ℕ)) (bl : Option Baseline)
    (today : ℤ) : Option (Sample × ℚ) × Option Baseline :=
  match regs with
  | none => (none, bl)
  | some rs =>
    match decode_legacy rs with
    | none => (none, bl)
    | some s =>
      let r := dailyEnergyWh bl today s.energy_lifetime_wh
      (some (s, r.1), r.2)

/-- The voltage plausibility filter applied when the snapshot is updated
(web_dashboard.py line 252): v if 150 <= v <= 270 else None. -/
def clampVoltage (v : ℚ) : Option ℚ :=
  if 150 ≤ v ∧ v ≤ 270 then some v else none

/-- The age in seconds of the last successful sample (web_dashboard.py
lines 315-318): elapsed seconds since the stored timestamp, or the
sentinel 9999 when no sample timestamp exists. -/
def sampleAge (lastTs : Option ℚ) (now : ℚ) : ℚ :=
  match lastTs with
  | some ts => now - ts
  | none => 9999

/-- The data-quality grading (web_dashboard.py lines 319-326):
OFFLINE when not connected, LIVE under 1.5 poll intervals, STALE under
3 poll intervals, otherwise NO DATA. -/
def dataQuality (pollSeconds age : ℚ) (connected : Bool) : String × String :=
  if connected = false then ("OFFLINE", "dq_off")
  else if age < pollSeconds * (3 / 2) then ("LIVE", "dq_ok")
  else if age < pollSeconds * 3 then ("STALE", "dq_warn")
  else ("NO DATA", "dq_off")

/-- One append to the chart history buffer (web_dashboard.py lines
297-300): if the length is at least 288 the oldest record is popped,
then the new record is appended. -/
def histAppend {α : Type} (l : List α) (r : α) : List α :=
  (if 288 ≤ l.length then l.drop 1 else l) ++ [r]

/-- The history buffer produced by a sequence of appends starting from
the empty buffer. -/
def histFold {α : Type} (rs : List α) : List α :=
  rs.foldl histAppend []

/-- The uptime accumulation step (web_dashboard.py lines 265-278): when
the cycle is not night-classified, power exceeds 5 W and a previous
sample timestamp exists, add the elapsed minutes since that timestamp,
capped at 2 poll intervals, and round the running total to one decimal
place; otherwise leave the total unchanged. -/
def uptimeStep (pollSeconds uptime : ℚ) (isNight : Bool) (p : ℤ)
    (prevTs : Option ℚ) (now : ℚ) : ℚ :=
  if isNight = false ∧ 5 < p then
    match prevTs with
    | none => uptime
    | some pt =>
      let elapsed := min ((now - pt) / 60) (pollSeconds * 2 / 60)
      if 0 < elapsed then pyRound 1 (uptime + elapsed) else uptime
  else uptime

/-- The shared mutable state dictionary (web_dashboard.py lines 30-42),
restricted to the fields the poller writes. -/
structure DashState where
  inverter_connected : Bool
  uptime_minutes_today : ℚ
  records : List HistoryRecord
  ac_voltage : Option ℚ
  grid_freq_hz : Option ℚ
  inverter_temp_c : Option ℚ
  energy_today_kwh : ℚ
  energy_total_kwh : Option ℚ
  peak_power_w : ℤ
  status_code : Option ℕ
  status_text : String
  status_class : String
  dq_text : String
  dq_class : String
  last_sample_ts : Option ℚ
  last_energy_wh : ℚ
  midnight : Option ℚ
deriving DecidableEq

/-- today_midnight_local (web_dashboard.py lines 52-54): the start of the
calendar day containing the instant now. -/
def midnightOf (now : ℚ) : ℚ := 86400 * (⌊now / 86400⌋ : ℚ)

/-- The calendar-day index of an instant, standing in for the
"%Y-%m-%d" string of web_dashboard.py line 159. -/
def dayOf (now : ℚ) : ℤ := ⌊now / 86400⌋

/-- The midnight-rollover test (web_dashboard.py line 222): no stored
rollover date, or the stored date earlier than today's midnight. -/
def rolloverDue (st : DashState) (now : ℚ) : Bool :=
  match st.midnight with
  | none => true
  | some m => decide (m < midnightOf now)

/-- The midnight-rollover block (web_dashboard.py lines 218-230): when
due, delete the baseline file, record the new rollover date, reset
uptime minutes to 0 and clear the history records. -/
def midnightReset (st : DashState) (bl : Option Baseline) (now : ℚ) :
    DashState × Option Baseline :=
  if rolloverDue st now then
    ({ st with
        midnight := some (midnightOf now)
        uptime_minutes_today := 0
        records := [] }, none)
  else (st, bl)

/-- The successful-sample state update (web_dashboard.py lines 234-300):
night detection, snapshot field updates, peak tracking, uptime
accumulation, sample timestamp, history append. -/
def applySample (pollSeconds : ℚ) (st : DashState) (now : ℚ) (s : Sample)
    (eToday : ℚ) : DashState :=
  let prevTs := st.last_sample_ts
  let sc := decode_status s.status_code
  let dn := detect_night (some s.ac_voltage) true
  let isNight := dn.2.2
  let st1 := { st with
    ac_voltage := clampVoltage s.ac_voltage
    grid_freq_hz := some s.grid_freq_hz
    inverter_temp_c := some s.inverter_temp_c
    energy_today_kwh := pyRound 3 (eToday / 1000)
    energy_total_kwh := some (pyRound 3 (s.energy_lifetime_wh / 1000))
    status_code := some s.status_code
    status_text := if isNight then dn.1 else sc.1
    status_class := if isNight then dn.2.1 else sc.2
    peak_power_w := max st.peak_power_w s.power_w
    last_energy_wh := eToday
    inverter_connected := !isNight }
  let st2 := { st1 with
    uptime_minutes_today :=
      uptimeStep pollSeconds st1.uptime_minutes_today isNight s.power_w prevTs now }
  let st3 := { st2 with last_sample_ts := some now }
  { st3 with records := histAppend st3.records ⟨now, s.power_w, ⌊eToday⌋⟩ }

/-- The failed-read state update (web_dashboard.py lines 303-311). -/
def applyFailure (st : DashState) : DashState :=
  { st with
    inverter_connected := false
    status_text := "Offline"
    status_class := "muted"
    ac_voltage := none
    grid_freq_hz := none
    inverter_temp_c := none }

/-- The data-quality grading step (web_dashboard.py lines 313-329). -/
def applyQuality (pollSeconds : ℚ) (st : DashState) (now : ℚ) : DashState :=
  let dq := dataQuality pollSeconds (sampleAge st.last_sample_ts now)
    st.inverter_connected
  { st with dq_text := dq.1, dq_class := dq.2 }

/-- One iteration of poller_loop (web_dashboard.py lines 215-329):
midnight check, register read and decode with baseline accounting,
state update on either outcome, then data-quality grading.  The
network upload and the snapshot save have no effect on the in-memory
state and are modelled separately. -/
def pollCycle (pollSeconds : ℚ) (st : DashState) (bl : Option Baseline)
    (now : ℚ) (regs : Option (List ℕ)) : DashState × Option Baseline :=
  let mr := midnightReset st bl now
  let rb := read_legacy_block regs mr.2 (dayOf now)
  let stepped :=
    match rb.1 with
    | some se => (applySample pollSeconds mr.1 now se.1 se.2, rb.2)
    | none => (applyFailure mr.1, rb.2)
  (applyQuality pollSeconds stepped.1 now, stepped.2)

/-- File-system operations performed by save_state. -/
inductive FsOp where
  | openTrunc (path : String)
  | writeAll (path : String) (data : String)
  | flush (path : String)
  | fsync (path : String)
  | rename (src dst : String)
deriving DecidableEq

/-- Whether an operation is a rename. -/
def FsOp.isRename : FsOp → Bool
  | .rename _ _ => true
  | _ => false

/-- The path an operation targets. -/
def FsOp.target : FsOp → String
  | .openTrunc p => p
  | .writeAll p _ => p
  | .flush p => p
  | .fsync p => p
  | .rename _ dst => dst

/-- A file system: a map from paths to file contents, none for a
missing file. -/
def Fs : Type := String → Option String

/-- Effect of one operation on the file system: opening a path in
write mode truncates it to empty immediately; a full write replaces the
content; flush and fsync change nothing visible; rename moves content. -/
def applyOp (fs : Fs) : FsOp → Fs
  | .openTrunc p => fun q => if q = p then some "" else fs q
  | .writeAll p d => fun q => if q = p then some d else fs q
  | .flush _ => fs
  | .fsync _ => fs
  | .rename src dst =>
    fun q => if q = dst then fs src else if q = src then none else fs q

/-- Effect of a sequence of operations. -/
def applyOps (ops : List FsOp) (fs : Fs) : Fs :=
  ops.foldl applyOp fs

/-- The snapshot file path (web_dashboard.py line 19). -/
def STATE_PATH : String := "/data/state.json"

/-- The file-system trace of save_state (web_dashboard.py lines 61-71):
open STATE_PATH itself in write mode (truncating it), write the
serialized state, flush, fsync.  No temporary file and no rename. -/
def save_state_ops (payload : String) : List FsOp :=
  [.openTrunc STATE_PATH, .writeAll STATE_PATH payload,
   .flush STATE_PATH, .fsync STATE_PATH]

/-- save_state with its try/except (web_dashboard.py lines 61-71): if an
exception interrupts the trace after k operations, the remaining
operations are skipped, a warning is logged (the Bool result) and the
call returns normally. -/
def save_state_run (payload : String) (failAfter : Option ℕ) (fs : Fs) :
    Fs × Bool :=
  match failAfter with
  | none => (applyOps (save_state_ops payload) fs, false)
  | some k => (applyOps ((save_state_ops payload).take k) fs, true)

/-- The persist step of the poll cycle: save_state is called for its
file-system effect only; the in-memory state is passed through
untouched whether or not the save fails. -/
def pollPersistStep (st : DashState) (payload : String)
    (failAfter : Option ℕ) (fs : Fs) : DashState × Fs :=
  (st, (save_state_run payload failAfter fs).1)

/-! ## Helper lemmas -/

theorem halfEvenRound_intCast (k : ℤ) : halfEvenRound (k : ℚ) = k := by
  unfold halfEvenRound
  rw [Int.floor_intCast, round_intCast]
  norm_num

theorem floor_le_halfEvenRound (q : ℚ) : ⌊q⌋ ≤ halfEvenRound q := by
  unfold halfEvenRound
  split
  · split <;> omega
  · rw [round_eq]
    exact Int.floor_le_floor (by linarith)

theorem halfEvenRound_ge (k : ℤ) (q : ℚ) (h : (k : ℚ) ≤ q) :
    k ≤ halfEvenRound q :=
  le_trans (Int.le_floor.mpr h) (floor_le_halfEvenRound q)

theorem pyRound_exact (d : ℕ) (n : ℤ) :
    pyRound d ((n : ℚ) / 10 ^ d) = (n : ℚ) / 10 ^ d := by
  unfold pyRound
  rw [div_mul_cancel₀ _ (by positivity : ((10 : ℚ) ^ d) ≠ 0),
    halfEvenRound_intCast]

theorem pyRound_div_ten (n : ℕ) : pyRound 1 ((n : ℚ) / 10) = (n : ℚ) / 10 := by
  have h := pyRound_exact 1 (n : ℤ)
  push_cast at h
  rw [pow_one] at h
  exact h

theorem pyRound_div_hundred (n : ℕ) :
    pyRound 2 ((n : ℚ) / 100) = (n : ℚ) / 100 := by
  have h := pyRound_exact 2 (n : ℤ)
  push_cast at h
  norm_num at h
  exact h

theorem div10_le_pyRound_one (k : ℤ) (q : ℚ) (h : (k : ℚ) / 10 ≤ q) :
    (k : ℚ) / 10 ≤ pyRound 1 q := by
  have h10 : (k : ℚ) ≤ q * 10 ^ 1 := by
    rw [pow_one]
    linarith
  have hk : (k : ℚ) ≤ (halfEvenRound (q * 10 ^ 1) : ℚ) := by
    exact_mod_cast halfEvenRound_ge k _ h10
  unfold pyRound
  rw [pow_one] at hk ⊢
  linarith

theorem read_legacy_block_some (rs : List ℕ) (bl : Option Baseline)
    (today : ℤ) (s : Sample) (hdec : decode_legacy rs = some s) :
    read_legacy_block (some rs) bl today =
      (some (s, (dailyEnergyWh bl today s.energy_lifetime_wh).1),
       (dailyEnergyWh bl today s.energy_lifetime_wh).2) := by
  simp [read_legacy_block, hdec]

theorem applySample_ac_voltage (P : ℚ) (st : DashState) (now : ℚ)
    (s : Sample) (e : ℚ) :
    (applySample P st now s e).ac_voltage = clampVoltage s.ac_voltage := rfl

theorem applySample_connected (P : ℚ) (st : DashState) (now : ℚ)
    (s : Sample) (e : ℚ) :
    (applySample P st now s e).inverter_connected
      = !(detect_night (some s.ac_voltage) true).2.2 := rfl

theorem applySample_midnight (P : ℚ) (st : DashState) (now : ℚ)
    (s : Sample) (e : ℚ) :
    (applySample P st now s e).midnight = st.midnight := rfl

theorem applyFailure_midnight (st : DashState) :
    (applyFailure st).midnight = st.midnight := rfl

theorem applyQuality_midnight (P : ℚ) (st : DashState) (now : ℚ) :
    (applyQuality P st now).midnight = st.midnight := rfl

theorem applyQuality_ac_voltage (P : ℚ) (st : DashState) (now : ℚ) :
    (applyQuality P st now).ac_voltage = st.ac_voltage := rfl

theorem applyQuality_connected (P : ℚ) (st : DashState) (now : ℚ) :
    (applyQuality P st now).inverter_connected = st.inverter_connected := rfl

theorem applyQuality_dq_text_of_not_connected (P : ℚ) (st : DashState)
    (now : ℚ) (h : st.inverter_connected = false) :
    (applyQuality P st now).dq_text = "OFFLINE" := by
  simp [applyQuality, dataQuality, h]

theorem pollCycle_midnight (P : ℚ) (st : DashState) (bl : Option Baseline)
    (now : ℚ) (regs : Option (List ℕ)) :
    (pollCycle P st bl now regs).1.midnight
      = (midnightReset st bl now).1.midnight := by
  unfold pollCycle
  cases hrb :
      (read_legacy_block regs (midnightReset st bl now).2 (dayOf now)).1 with
  | none => simp [hrb, applyQuality_midnight, applyFailure_midnight]
  | some se => simp [hrb, applyQuality_midnight, applySample_midnight]

theorem rolloverDue_of_midnight_some (st : DashState) (now m : ℚ)
    (h : st.midnight = some m) :
    rolloverDue st now = decide (m < midnightOf now) := by
  unfold rolloverDue
  rw [h]

theorem histFold_eq_drop {α : Type} (rs : List α) :
    histFold rs = rs.drop (rs.length - 288) := by
  induction rs using List.reverseRecOn with
  | nil => simp [histFold]
  | append_singleton l a ih =>
    have hstep : histFold (l ++ [a]) = histAppend (histFold l) a := by
      unfold histFold
      rw [List.foldl_append]
      rfl
    rw [hstep, ih, histAppend]
    by_cases h : 288 ≤ l.length
    · have hlen : (l.drop (l.length - 288)).length = 288 := by
        rw [List.length_drop]; omega
      have hlen2 : (l ++ [a]).length - 288 = l.length + 1 - 288 := by
        simp [List.length_append]
      rw [if_pos (by omega), List.drop_drop, hlen2,
        List.drop_append_of_le_length (by omega : l.length + 1 - 288 ≤ l.length)]
      have harith : l.length - 288 + 1 = l.length + 1 - 288 := by omega
      rw [harith]
    · have h0 : l.length - 288 = 0 := by omega
      have h1 : (l ++ [a]).length - 288 = 0 := by
        rw [List.length_append]; simp; omega
      rw [h0, h1, List.drop_zero, List.drop_zero, if_neg (by omega)]

/-! ## Shared example values -/

/-- The initial shared state (web_dashboard.py lines 30-42). -/
def initialState : DashState :=
  { inverter_connected := false
    uptime_minutes_today := 0
    records := []
    ac_voltage := none
    grid_freq_hz := none
    inverter_temp_c := none
    energy_today_kwh := 0
    energy_total_kwh := none
    peak_power_w := 0
    status_code := none
    status_text := "Unknown"
    status_class := "muted"
    dq_text := "DATA OK"
    dq_class := "ok"
    last_sample_ts := none
    last_energy_wh := 0
    midnight := none }

/-- A state captured late on day 0: some accumulated uptime, one history
record, a 500 W peak, rollover last performed at the midnight of day 0. -/
def rolloverState : DashState :=
  { initialState with
    inverter_connected := true
    uptime_minutes_today := 100
    records := [⟨1, 2, 3⟩]
    peak_power_w := 500
    midnight := some 0 }

/-- A daytime register block: 230.5 V, 50.03 Hz, 45.1 C, 1500 W,
status 4, lifetime counter 123456 scaled by 10 to the power -1. -/
def regsDay : List ℕ :=
  [2305, 0, 0, 0, 1500, 0, 5003, 0, 4, 0, 0, 0, 0, 0,
   1, 57920, 65535, 0, 0, 0, 0, 0, 0, 0, 0, 0, 451]

/-- The sample decoded from regsDay. -/
def sampleDay : Sample :=
  { ac_voltage := 461 / 2
    grid_freq_hz := 5003 / 100
    inverter_temp_c := 451 / 10
    power_w := 1500
    energy_lifetime_wh := 61728 / 5
    status_code := 4 }

/-- A night register block: 50 V, 100 W, status 1, zero counter. -/
def regsNight : List ℕ :=
  [500, 0, 0, 0, 100, 0, 5000, 0, 1, 0, 0, 0, 0, 0,
   0, 0, 0, 0, 0, 0, 0, 0, 0, 0, 0, 0, 400]

/-- The sample decoded from regsNight. -/
def sampleNight : Sample :=
  { ac_voltage := 50
    grid_freq_hz := 50
    inverter_temp_c := 40
    power_w := 100
    energy_lifetime_wh := 0
    status_code := 1 }

/-! ## Claims -/

/-- Claim C2, counterexample.  The claim states that when the lifetime
counter drops below the stored same-day baseline, the call re-anchors
the persisted baseline to the new lower reading.  At baseline
{day 0, 1000 Wh} and a same-day reading of 500 Wh the code returns 0 Wh
but keeps the stored baseline at 1000 Wh; it does not write
{day 0, 500 Wh}. -/
theorem baseline_rollback_no_reanchor :
    dailyEnergyWh (some ⟨0, 1000⟩) 0 500 = (0, some ⟨0, 1000⟩) ∧
    (dailyEnergyWh (some ⟨0, 1000⟩) 0 500).2 ≠ some ⟨0, 500⟩ := by
  have h : dailyEnergyWh (some ⟨0, 1000⟩) 0 500
      = (max 0 ((500 : ℚ) - 1000), some ⟨0, 1000⟩) := rfl
  rw [h]
  refine ⟨?_, ?_⟩
  · have : max 0 ((500 : ℚ) - 1000) = 0 := max_eq_left (by norm_num)
    rw [this]
  · intro hc
    have hc2 : (⟨0, 1000⟩ : Baseline) = ⟨0, 500⟩ := Option.some.inj hc
    have hw : (1000 : ℚ) = 500 := congrArg Baseline.wh hc2
    norm_num at hw

/-- Claim C2, amended.  For two successful samples on the same calendar
day where the lifetime counter has dropped below the stored baseline,
the later call returns 0 Wh for energy-today (never a negative value)
and leaves the persisted baseline unchanged; the baseline is only
re-anchored when the calendar day changes. -/
theorem baseline_rollback_returns_zero (b : Baseline) (today : ℤ) (e : ℚ)
    (hday : b.day = today) (hlt : e < b.wh) :
    (dailyEnergyWh (some b) today e).1 = 0 ∧
    (dailyEnergyWh (some b) today e).2 = some b := by
  have h1 : dailyEnergyWh (some b) today e = (max 0 (e - b.wh), some b) := by
    simp [dailyEnergyWh, hday]
  rw [h1]
  exact ⟨max_eq_left (by linarith), rfl⟩

/-- Witness for baseline_rollback_returns_zero at baseline
{day 0, 1000 Wh} and reading 500 Wh. -/
theorem baseline_rollback_returns_zero_witness :
    (Baseline.mk 0 1000).day = (0 : ℤ) ∧ ((500 : ℚ) < (Baseline.mk 0 1000).wh) ∧
    ((dailyEnergyWh (some ⟨0, 1000⟩) 0 500).1 = 0 ∧
     (dailyEnergyWh (some ⟨0, 1000⟩) 0 500).2 = some ⟨0, 1000⟩) :=
  ⟨rfl, by norm_num,
   baseline_rollback_returns_zero ⟨0, 1000⟩ 0 500 rfl (by norm_num)⟩

/-- Claim C3: energy-today is never negative; with no stored baseline or
a stored day different from today the call establishes the baseline
{today, lifetimeWh} and returns 0; and for a fixed day with a fixed
established baseline the returned energy-today is non-decreasing in the
lifetime counter. -/
theorem dailyEnergyWh_nonneg_monotone (bl : Option Baseline) (today : ℤ)
    (e e2 : ℚ) :
    0 ≤ (dailyEnergyWh bl today e).1 ∧
    ((bl = none ∨ ∀ b : Baseline, bl = some b → b.day ≠ today) →
      dailyEnergyWh bl today e = (0, some ⟨today, e⟩)) ∧
    (∀ b : Baseline, bl = some b → b.day = today → e ≤ e2 →
      (dailyEnergyWh bl today e).1 ≤ (dailyEnergyWh bl today e2).1) := by
  refine ⟨?_, ?_, ?_⟩
  · cases bl with
    | none => simp [dailyEnergyWh]
    | some b =>
      by_cases h : b.day = today <;>
        simp [dailyEnergyWh, h, le_max_left]
  · rintro (h | h)
    · subst h; rfl
    · cases bl with
      | none => rfl
      | some b =>
        have hb := h b rfl
        simp [dailyEnergyWh, hb]
  · rintro b rfl hday hle
    simp only [dailyEnergyWh, hday, if_pos]
    exact max_le_max le_rfl (by linarith)

/-- Witness for dailyEnergyWh_nonneg_monotone: baseline {day 5, 100 Wh},
readings 150 Wh and 200 Wh on day 5, and a missing-baseline call. -/
theorem dailyEnergyWh_nonneg_monotone_witness :
    0 ≤ (dailyEnergyWh (some ⟨5, 100⟩) 5 150).1 ∧
    dailyEnergyWh none 5 150 = (0, some ⟨5, 150⟩) ∧
    (dailyEnergyWh (some ⟨5, 100⟩) 5 150).1
      ≤ (dailyEnergyWh (some ⟨5, 100⟩) 5 200).1 :=
  ⟨(dailyEnergyWh_nonneg_monotone (some ⟨5, 100⟩) 5 150 200).1,
   (dailyEnergyWh_nonneg_monotone none 5 150 150).2.1 (Or.inl rfl),
   (dailyEnergyWh_nonneg_monotone (some ⟨5, 100⟩) 5 150 200).2.2
     ⟨5, 100⟩ rfl rfl (by norm_num)⟩

/-- Claim C4: for every register block long enough to index, the decoder
produces voltage reg[0] / 10, frequency reg[6] / 100, temperature
reg[26] / 10, power reg[4] in integer watts, status code reg[8], and
lifetime energy ((reg[14] shifted left 16) or-ed with reg[15]) times
10 to the power sf, with sf the signed 16-bit reading of reg[16]. -/
theorem decode_legacy_fields (regs : List ℕ) (h : 27 ≤ regs.length) :
    decode_legacy regs = some
      { ac_voltage := (regs.getD 0 0 : ℚ) / 10
        grid_freq_hz := (regs.getD 6 0 : ℚ) / 100
        inverter_temp_c := (regs.getD 26 0 : ℚ) / 10
        power_w := (regs.getD 4 0 : ℤ)
        energy_lifetime_wh :=
          ((Nat.lor (Nat.shiftLeft (regs.getD 14 0) 16) (regs.getD 15 0) : ℕ) : ℚ)
            * (10 : ℚ) ^ (if regs.getD 16 0 < 32768 then (regs.getD 16 0 : ℤ)
                          else (regs.getD 16 0 : ℤ) - 65536)
        status_code := regs.getD 8 0 } := by
  unfold decode_legacy sfSigned
  rw [if_pos h, pyRound_div_ten, pyRound_div_hundred, pyRound_div_ten]

/-- Witness for decode_legacy_fields on the concrete block regsDay:
2305 decodes to 230.5 V, 5003 to 50.03 Hz, 451 to 45.1 C, power 1500 W,
status 4, and words low 1, high 57920, scale 65535 give
123456 times 10 to the power -1 = 12345.6 Wh. -/
theorem decode_legacy_fields_witness :
    27 ≤ regsDay.length ∧ decode_legacy regsDay = some sampleDay :=
  ⟨by decide, (decode_legacy_fields regsDay (by decide)).trans (by
    have g0 : regsDay.getD 0 0 = 2305 := by decide
    have g6 : regsDay.getD 6 0 = 5003 := by decide
    have g26 : regsDay.getD 26 0 = 451 := by decide
    have g4 : regsDay.getD 4 0 = 1500 := by decide
    have g8 : regsDay.getD 8 0 = 4 := by decide
    have g14 : regsDay.getD 14 0 = 1 := by decide
    have g15 : regsDay.getD 15 0 = 57920 := by decide
    have g16 : regsDay.getD 16 0 = 65535 := by decide
    have glor : Nat.lor (Nat.shiftLeft 1 16) 57920 = 123456 := by decide
    rw [g0, g6, g26, g4, g8, g14, g15, g16, glor,
      if_neg (by norm_num : ¬ ((65535 : ℕ) < 32768))]
    simp only [sampleDay, Option.some.injEq, Sample.mk.injEq]
    push_cast
    norm_num [zpow_neg, zpow_one])⟩

/-- Claim C8: the history buffer never exceeds 288 records after any
sequence of appends from empty; after 289 appends the buffer equals the
most recent 288 records in insertion order and, when the records are
distinct, the first-appended record is absent. -/
theorem history_buffer_bound_fifo {α : Type} (rs : List α)
    (h : rs.length = 289) :
    (∀ xs : List α, (histFold xs).length ≤ 288) ∧
    histFold rs = rs.tail ∧
    (rs.Nodup → ∀ a : α, rs.head? = some a → a ∉ histFold rs) := by
  refine ⟨?_, ?_, ?_⟩
  · intro xs
    rw [histFold_eq_drop, List.length_drop]
    omega
  · rw [histFold_eq_drop, h]
    norm_num [List.drop_one]
  · intro hnd a ha
    rw [histFold_eq_drop, h]
    cases rs with
    | nil => simp at ha
    | cons b t =>
      simp only [List.head?_cons, Option.some.injEq] at ha
      subst ha
      have := (List.nodup_cons.mp hnd).1
      simpa using this

/-- Witness for history_buffer_bound_fifo on the 289 distinct records
0, 1, ..., 288. -/
theorem history_buffer_bound_fifo_witness :
    (List.range 289).length = 289 ∧
    ((∀ xs : List ℕ, (histFold xs).length ≤ 288) ∧
     histFold (List.range 289) = (List.range 289).tail ∧
     ((List.range 289).Nodup → ∀ a : ℕ, (List.range 289).head? = some a →
        a ∉ histFold (List.range 289))) :=
  ⟨by simp, history_buffer_bound_fifo (List.range 289) (by simp)⟩

/-! ## More rounding helpers -/

theorem halfEvenRound_of_lt_half (q : ℚ) (k : ℤ) (h1 : (k : ℚ) ≤ q)
    (h2 : q < k + 1 / 2) : halfEvenRound q = k := by
  have hfl : ⌊q⌋ = k := Int.floor_eq_iff.mpr ⟨h1, by linarith⟩
  unfold halfEvenRound
  rw [hfl, if_neg (by intro hc; linarith), round_eq]
  exact Int.floor_eq_iff.mpr ⟨by linarith, by linarith⟩

theorem pyRound_one_div_int (n : ℤ) :
    pyRound 1 ((n : ℚ) / 10) = (n : ℚ) / 10 := by
  have h := pyRound_exact 1 n
  rwa [pow_one] at h

theorem uptimeStep_eval (P u now pt e : ℚ) (p : ℤ) (hp : 5 < p)
    (hmin : min ((now - pt) / 60) (P * 2 / 60) = e) (he : 0 < e) :
    uptimeStep P u false p (some pt) now = pyRound 1 (u + e) := by
  unfold uptimeStep
  rw [if_pos ⟨rfl, hp⟩]
  show (if 0 < min ((now - pt) / 60) (P * 2 / 60)
        then pyRound 1 (u + min ((now - pt) / 60) (P * 2 / 60)) else u) = _
  rw [hmin, if_pos he]

/-- Claim C6, counterexample.  The claim states that a connected state
with no prior successful sample grades NO DATA for every poll interval.
The sentinel age is the finite value 9999 seconds, so at a poll interval
of 6667 seconds (POLL_SECONDS=6667 is legal: max(30, 6667)) the grade is
LIVE, because 9999 < 1.5 * 6667. -/
theorem dq_no_prior_sample_not_infinite :
    dataQuality 6667 (sampleAge none 0) true = ("LIVE", "dq_ok") ∧
    (("LIVE", "dq_ok") : String × String) ≠ ("NO DATA", "dq_off") := by
  constructor
  · have h : sampleAge none 0 = 9999 := rfl
    rw [h]
    unfold dataQuality
    rw [if_neg (by decide), if_pos (by norm_num)]
  · decide

/-- Claim C6, amended.  The grading itself is as claimed: not connected
gives OFFLINE regardless of age; otherwise age under 1.5 poll intervals
gives LIVE, under 3 gives STALE, else NO DATA.  With no prior sample the
age is the finite sentinel 9999 seconds (not infinite), which grades
NO DATA for every poll interval of at most 3333 seconds but can grade
STALE or LIVE for larger intervals. -/
theorem dq_grading_amended (P age now : ℚ) (c : Bool) :
    (c = false → dataQuality P age c = ("OFFLINE", "dq_off")) ∧
    (c = true → age < P * (3 / 2) → dataQuality P age c = ("LIVE", "dq_ok")) ∧
    (c = true → ¬ age < P * (3 / 2) → age < P * 3 →
      dataQuality P age c = ("STALE", "dq_warn")) ∧
    (c = true → ¬ age < P * (3 / 2) → ¬ age < P * 3 →
      dataQuality P age c = ("NO DATA", "dq_off")) ∧
    sampleAge none now = 9999 ∧
    (c = true → P ≤ 3333 →
      dataQuality P (sampleAge none now) c = ("NO DATA", "dq_off")) := by
  refine ⟨?_, ?_, ?_, ?_, rfl, ?_⟩
  · intro h; subst h; rfl
  · intro h h2; subst h
    unfold dataQuality
    rw [if_neg (by decide), if_pos h2]
  · intro h h2 h3; subst h
    unfold dataQuality
    rw [if_neg (by decide), if_neg h2, if_pos h3]
  · intro h h2 h3; subst h
    unfold dataQuality
    rw [if_neg (by decide), if_neg h2, if_neg h3]
  · intro h hP; subst h
    have hage : sampleAge none now = 9999 := rfl
    rw [hage]
    have hm : P * (3 / 2) ≤ 3333 * (3 / 2) :=
      mul_le_mul_of_nonneg_right hP (by norm_num)
    have hm3 : P * 3 ≤ 3333 * 3 := mul_le_mul_of_nonneg_right hP (by norm_num)
    unfold dataQuality
    rw [if_neg (by decide), if_neg (by norm_num; linarith),
      if_neg (by norm_num; linarith)]

/-- Witness for dq_grading_amended at the specification examples:
poll interval 300 s, ages 200, 700 and 1000 s, a disconnected state,
and the no-prior-sample sentinel. -/
theorem dq_grading_amended_witness :
    dataQuality 300 200 false = ("OFFLINE", "dq_off") ∧
    dataQuality 300 200 true = ("LIVE", "dq_ok") ∧
    dataQuality 300 700 true = ("STALE", "dq_warn") ∧
    dataQuality 300 1000 true = ("NO DATA", "dq_off") ∧
    dataQuality 300 (sampleAge none 0) true = ("NO DATA", "dq_off") :=
  ⟨(dq_grading_amended 300 200 0 false).1 rfl,
   (dq_grading_amended 300 200 0 true).2.1 rfl (by norm_num),
   (dq_grading_amended 300 700 0 true).2.2.1 rfl (by norm_num) (by norm_num),
   (dq_grading_amended 300 1000 0 true).2.2.2.1 rfl (by norm_num) (by norm_num),
   (dq_grading_amended 300 0 0 true).2.2.2.2.2 rfl (by norm_num)⟩

/-- Claim C7, counterexample.  The claim states the increment equals the
elapsed wall-clock minutes capped at 2 poll intervals.  With a prior
total of 0, a gap of 302.4 seconds (5.04 minutes, below the cap) and
50 W of power outside night, the new total is round(0 + 5.04, 1) = 5.0,
so the increment is 5.0, not the capped elapsed 5.04. -/
theorem uptime_increment_rounding :
    uptimeStep 300 0 false 50 (some 0) (1512 / 5) = 5 ∧
    min (((1512 / 5 : ℚ) - 0) / 60) (300 * 2 / 60) = 126 / 25 ∧
    (5 : ℚ) - 0 ≠ 126 / 25 := by
  have hmin : min (((1512 / 5 : ℚ) - 0) / 60) (300 * 2 / 60) = 126 / 25 := by
    rw [min_eq_left (by norm_num)]
    norm_num
  refine ⟨?_, hmin, by norm_num⟩
  rw [uptimeStep_eval 300 0 (1512 / 5) 0 (126 / 25) 50 (by decide) hmin
    (by norm_num)]
  unfold pyRound
  rw [show ((0 : ℚ) + 126 / 25) * 10 ^ 1 = 252 / 5 by norm_num,
    halfEvenRound_of_lt_half (252 / 5) 50 (by norm_num) (by norm_num)]
  norm_num

/-- Claim C7, amended.  Uptime increases only when the cycle is not
night-classified, power exceeds 5 W and a previous sample timestamp
exists; the new total is the old total plus the elapsed minutes capped
at 2 poll intervals, rounded to one decimal place (so the increment may
differ from the capped elapsed time by the rounding of the total); the
specification examples hold exactly (a 5-minute gap at 50 W adds 5.0
minutes, a 40-minute gap at poll interval 300 s adds 10.0 minutes); and
the total, always a multiple of 0.1, is never decremented. -/
theorem uptime_step_amended (P u now pt : ℚ) (isNight : Bool) (p : ℤ)
    (prevTs : Option ℚ) :
    (isNight = true ∨ p ≤ 5 ∨ prevTs = none →
      uptimeStep P u isNight p prevTs now = u) ∧
    (isNight = false → 5 < p → prevTs = some pt →
      uptimeStep P u isNight p prevTs now =
        (if 0 < min ((now - pt) / 60) (P * 2 / 60)
         then pyRound 1 (u + min ((now - pt) / 60) (P * 2 / 60))
         else u)) ∧
    ((∃ k : ℤ, u = (k : ℚ) / 10) →
      u ≤ uptimeStep P u isNight p prevTs now) ∧
    ((∃ k : ℤ, u = (k : ℚ) / 10) →
      ∃ k2 : ℤ, uptimeStep P u isNight p prevTs now = (k2 : ℚ) / 10) ∧
    uptimeStep 300 0 false 50 (some 0) 300 = 5 ∧
    uptimeStep 300 0 false 50 (some 0) 2400 = 10 := by
  refine ⟨?_, ?_, ?_, ?_, ?_, ?_⟩
  · rintro (h | h | h)
    · subst h; simp [uptimeStep]
    · unfold uptimeStep
      rw [if_neg (fun hc => absurd hc.2 (not_lt.mpr h))]
    · subst h
      unfold uptimeStep
      split <;> rfl
  · intro h1 h2 h3
    subst h1; subst h3
    unfold uptimeStep
    rw [if_pos ⟨rfl, h2⟩]
  · rintro ⟨k, hk⟩
    by_cases hg : isNight = false ∧ 5 < p
    · cases prevTs with
      | none =>
        unfold uptimeStep
        rw [if_pos hg]
      | some pt2 =>
        unfold uptimeStep
        rw [if_pos hg]
        show u ≤ if 0 < min ((now - pt2) / 60) (P * 2 / 60)
          then pyRound 1 (u + min ((now - pt2) / 60) (P * 2 / 60)) else u
        by_cases he : 0 < min ((now - pt2) / 60) (P * 2 / 60)
        · rw [if_pos he]
          subst hk
          exact div10_le_pyRound_one k _ (by linarith)
        · rw [if_neg he]
    · unfold uptimeStep
      rw [if_neg hg]
  · rintro ⟨k, hk⟩
    by_cases hg : isNight = false ∧ 5 < p
    · cases prevTs with
      | none =>
        refine ⟨k, ?_⟩
        unfold uptimeStep
        rw [if_pos hg]
        exact hk
      | some pt2 =>
        unfold uptimeStep
        rw [if_pos hg]
        show ∃ k2 : ℤ, (if 0 < min ((now - pt2) / 60) (P * 2 / 60)
          then pyRound 1 (u + min ((now - pt2) / 60) (P * 2 / 60)) else u)
            = (k2 : ℚ) / 10
        by_cases he : 0 < min ((now - pt2) / 60) (P * 2 / 60)
        · rw [if_pos he]
          refine ⟨halfEvenRound ((u + min ((now - pt2) / 60) (P * 2 / 60))
            * 10 ^ 1), ?_⟩
          unfold pyRound
          norm_num
        · rw [if_neg he]
          exact ⟨k, hk⟩
    · refine ⟨k, ?_⟩
      unfold uptimeStep
      rw [if_neg hg]
      exact hk
  · have hmin : min (((300 : ℚ) - 0) / 60) (300 * 2 / 60) = 5 := by
      rw [min_eq_left (by norm_num)]
      norm_num
    rw [uptimeStep_eval 300 0 300 0 5 50 (by decide) hmin (by norm_num),
      show (0 : ℚ) + 5 = ((50 : ℤ) : ℚ) / 10 by norm_num,
      pyRound_one_div_int]
    norm_num
  · have hmin : min (((2400 : ℚ) - 0) / 60) (300 * 2 / 60) = 10 := by
      rw [min_eq_right (by norm_num)]
      norm_num
    rw [uptimeStep_eval 300 0 2400 0 10 50 (by decide) hmin (by norm_num),
      show (0 : ℚ) + 10 = ((100 : ℤ) : ℚ) / 10 by norm_num,
      pyRound_one_div_int]
    norm_num

/-- Witness for uptime_step_amended: no increment at night, and the
accumulated total never decreases from a concrete multiple of 0.1. -/
theorem uptime_step_amended_witness :
    uptimeStep 300 7 true 50 (some 0) 300 = 7 ∧
    (0 : ℚ) ≤ uptimeStep 300 0 false 50 (some 0) 300 :=
  ⟨(uptime_step_amended 300 7 300 0 true 50 (some 0)).1 (Or.inl rfl),
   (uptime_step_amended 300 0 300 0 false 50 (some 0)).2.2.1
     ⟨0, by norm_num⟩⟩

/-! ## Poll-cycle helpers -/

theorem applyFailure_uptime (st : DashState) :
    (applyFailure st).uptime_minutes_today = st.uptime_minutes_today := rfl

theorem applyFailure_records (st : DashState) :
    (applyFailure st).records = st.records := rfl

theorem applyFailure_peak (st : DashState) :
    (applyFailure st).peak_power_w = st.peak_power_w := rfl

theorem applyQuality_uptime (P : ℚ) (st : DashState) (now : ℚ) :
    (applyQuality P st now).uptime_minutes_today
      = st.uptime_minutes_today := rfl

theorem applyQuality_records (P : ℚ) (st : DashState) (now : ℚ) :
    (applyQuality P st now).records = st.records := rfl

theorem applyQuality_peak (P : ℚ) (st : DashState) (now : ℚ) :
    (applyQuality P st now).peak_power_w = st.peak_power_w := rfl

theorem pollCycle_none (P : ℚ) (st : DashState) (bl : Option Baseline)
    (now : ℚ) :
    pollCycle P st bl now none =
      (applyQuality P (applyFailure (midnightReset st bl now).1) now,
       (midnightReset st bl now).2) := rfl

theorem pollCycle_some (P : ℚ) (st : DashState) (bl : Option Baseline)
    (now : ℚ) (rs : List ℕ) (s : Sample)
    (hdec : decode_legacy rs = some s) :
    pollCycle P st bl now (some rs) =
      (applyQuality P (applySample P (midnightReset st bl now).1 now s
        (dailyEnergyWh (midnightReset st bl now).2 (dayOf now)
          s.energy_lifetime_wh).1) now,
       (dailyEnergyWh (midnightReset st bl now).2 (dayOf now)
          s.energy_lifetime_wh).2) := by
  simp only [pollCycle,
    read_legacy_block_some rs (midnightReset st bl now).2 (dayOf now) s hdec]

theorem midnightReset_of_due (st : DashState) (bl : Option Baseline)
    (now : ℚ) (h : rolloverDue st now = true) :
    midnightReset st bl now =
      ({ st with
          midnight := some (midnightOf now)
          uptime_minutes_today := 0
          records := [] }, none) := by
  unfold midnightReset
  rw [h]
  rfl

theorem floor_86410 : ⌊(86410 : ℚ) / 86400⌋ = 1 :=
  Int.floor_eq_iff.mpr ⟨by norm_num, by norm_num⟩

theorem midnightOf_86410 : midnightOf 86410 = 86400 := by
  unfold midnightOf
  rw [floor_86410]
  norm_num

theorem rolloverState_due : rolloverDue rolloverState 86410 = true := by
  show decide ((0 : ℚ) < midnightOf 86410) = true
  rw [midnightOf_86410]
  exact decide_eq_true (by norm_num)

/-- Claim C1, counterexample.  The claim states that the midnight
rollover also resets the peak power observed today to 0.  Starting from
a day-0 state with peak 500 W and running one cycle at 86410 s (past the
day-1 midnight, so the rollover fires), uptime and the history buffer
are reset but the peak stays 500 W: no code path resets peak_power_w. -/
theorem midnight_rollover_peak_not_reset :
    rolloverDue rolloverState 86410 = true ∧
    (pollCycle 300 rolloverState none 86410 none).1.uptime_minutes_today
      = 0 ∧
    (pollCycle 300 rolloverState none 86410 none).1.records = [] ∧
    (pollCycle 300 rolloverState none 86410 none).1.peak_power_w = 500 ∧
    ((500 : ℤ) ≠ 0) := by
  have hmr := midnightReset_of_due rolloverState none 86410 rolloverState_due
  refine ⟨rolloverState_due, ?_, ?_, ?_, by decide⟩
  · rw [pollCycle_none, applyQuality_uptime, applyFailure_uptime, hmr]
  · rw [pollCycle_none, applyQuality_records, applyFailure_records, hmr]
  · rw [pollCycle_none, applyQuality_peak, applyFailure_peak, hmr]
    rfl

/-- Claim C1, amended.  At a midnight rollover (no stored rollover date,
or a stored date earlier than the current day's midnight) the poll cycle
resets today's uptime minutes to 0, clears the history buffer and
deletes the baseline record, exactly once per calendar day: after the
rollover cycle the stored rollover date equals the current day's
midnight, so no later cycle of the same day fires the reset again.  The
peak power observed today is not reset. -/
theorem midnight_rollover_resets_amended (P : ℚ) (st : DashState)
    (bl : Option Baseline) (now now2 : ℚ) (regs : Option (List ℕ))
    (hfire : rolloverDue st now = true) :
    (midnightReset st bl now).1.uptime_minutes_today = 0 ∧
    (midnightReset st bl now).1.records = [] ∧
    (midnightReset st bl now).2 = none ∧
    (midnightReset st bl now).1.peak_power_w = st.peak_power_w ∧
    (pollCycle P st bl now regs).1.midnight = some (midnightOf now) ∧
    (midnightOf now2 = midnightOf now →
      rolloverDue (pollCycle P st bl now regs).1 now2 = false) := by
  have hmr := midnightReset_of_due st bl now hfire
  have hm : (pollCycle P st bl now regs).1.midnight
      = some (midnightOf now) := by
    rw [pollCycle_midnight, hmr]
  refine ⟨by rw [hmr], by rw [hmr], by rw [hmr], by rw [hmr], hm, ?_⟩
  intro h2
  rw [rolloverDue_of_midnight_some _ _ _ hm, h2]
  exact decide_eq_false (lt_irrefl _)

/-- Witness for midnight_rollover_resets_amended on the concrete day-0
state rolloverState at instant 86410, with a second instant 86500 in the
same day. -/
theorem midnight_rollover_resets_amended_witness :
    rolloverDue rolloverState 86410 = true ∧
    ((midnightReset rolloverState none 86410).1.uptime_minutes_today
       = 0 ∧
     (midnightReset rolloverState none 86410).1.records = [] ∧
     (midnightReset rolloverState none 86410).2 = none ∧
     (midnightReset rolloverState none 86410).1.peak_power_w
       = rolloverState.peak_power_w ∧
     (pollCycle 300 rolloverState none 86410 none).1.midnight
       = some (midnightOf 86410) ∧
     (midnightOf 86500 = midnightOf 86410 →
       rolloverDue (pollCycle 300 rolloverState none 86410 none).1 86500
         = false)) :=
  ⟨rolloverState_due,
   midnight_rollover_resets_amended 300 rolloverState none 86410 86500
     none rolloverState_due⟩

/-- Helper: the night block regsNight decodes to sampleNight. -/
theorem decode_regsNight : decode_legacy regsNight = some sampleNight := by
  unfold decode_legacy sfSigned
  rw [if_pos (by decide : 27 ≤ regsNight.length)]
  have g0 : regsNight.getD 0 0 = 500 := by decide
  have g6 : regsNight.getD 6 0 = 5000 := by decide
  have g26 : regsNight.getD 26 0 = 400 := by decide
  have g4 : regsNight.getD 4 0 = 100 := by decide
  have g8 : regsNight.getD 8 0 = 1 := by decide
  have g14 : regsNight.getD 14 0 = 0 := by decide
  have g15 : regsNight.getD 15 0 = 0 := by decide
  have g16 : regsNight.getD 16 0 = 0 := by decide
  have glor : Nat.lor (Nat.shiftLeft 0 16) 0 = 0 := by decide
  rw [g0, g6, g26, g4, g8, g14, g15, g16, glor,
    if_pos (by norm_num : (0 : ℕ) < 32768),
    pyRound_div_ten 500, pyRound_div_hundred 5000, pyRound_div_ten 400]
  simp only [sampleNight, Option.some.injEq, Sample.mk.injEq]
  norm_num

/-- Claim C5: for every successfully decoded register block, the
snapshot voltage is the decoded voltage when it lies inside [150, 270]
volts and null otherwise; and a long-enough block always decodes to a
sample, whatever its voltage, so an out-of-range voltage alone never
causes a decode failure. -/
theorem voltage_clamp_snapshot (P : ℚ) (st : DashState)
    (bl : Option Baseline) (now : ℚ) (rs : List ℕ) (s : Sample)
    (hdec : decode_legacy rs = some s) :
    (pollCycle P st bl now (some rs)).1.ac_voltage =
      (if 150 ≤ s.ac_voltage ∧ s.ac_voltage ≤ 270 then some s.ac_voltage
       else none) ∧
    (∀ regs : List ℕ, 27 ≤ regs.length →
      (decode_legacy regs).isSome = true) := by
  constructor
  · rw [pollCycle_some P st bl now rs s hdec, applyQuality_ac_voltage,
      applySample_ac_voltage]
    rfl
  · intro regs h
    unfold decode_legacy
    rw [if_pos h]
    rfl

/-- Witness for voltage_clamp_snapshot on the night block regsNight,
whose decoded 50 V lies outside [150, 270] and is reported as null. -/
theorem voltage_clamp_snapshot_witness :
    decode_legacy regsNight = some sampleNight ∧
    (if 150 ≤ sampleNight.ac_voltage ∧ sampleNight.ac_voltage ≤ 270
     then some sampleNight.ac_voltage else none) = none ∧
    ((pollCycle 300 initialState none 0 (some regsNight)).1.ac_voltage =
       (if 150 ≤ sampleNight.ac_voltage ∧ sampleNight.ac_voltage ≤ 270
        then some sampleNight.ac_voltage else none) ∧
     (∀ regs : List ℕ, 27 ≤ regs.length →
       (decode_legacy regs).isSome = true)) :=
  ⟨decode_regsNight,
   by rw [if_neg (by norm_num [sampleNight])],
   voltage_clamp_snapshot 300 initialState none 0 regsNight sampleNight
     decode_regsNight⟩

/-- Claim C10: on the success path the night flag is computed by
detect_night with the connected argument fixed to true, so it depends
only on the decoded voltage (night exactly when voltage is below
100 V); a night-classified cycle stores connectivity false in the
snapshot, and that cycle's data-quality grade is OFFLINE even though the
sample timestamp was just refreshed. -/
theorem night_classification_offline (P : ℚ) (st : DashState)
    (bl : Option Baseline) (now : ℚ) (rs : List ℕ) (s : Sample)
    (hdec : decode_legacy rs = some s) :
    (detect_night (some s.ac_voltage) true).2.2
      = decide (s.ac_voltage < 100) ∧
    ((pollCycle P st bl now (some rs)).1.inverter_connected = true ↔
      ¬ s.ac_voltage < 100) ∧
    (s.ac_voltage < 100 →
      (pollCycle P st bl now (some rs)).1.dq_text = "OFFLINE") := by
  have hdn : (detect_night (some s.ac_voltage) true).2.2
      = decide (s.ac_voltage < 100) := by
    by_cases h : s.ac_voltage < 100 <;> simp [detect_night, h]
  refine ⟨hdn, ?_, ?_⟩
  · rw [pollCycle_some P st bl now rs s hdec, applyQuality_connected,
      applySample_connected, hdn]
    by_cases h : s.ac_voltage < 100 <;> simp [h]
  · intro hv
    rw [pollCycle_some P st bl now rs s hdec]
    apply applyQuality_dq_text_of_not_connected
    rw [applySample_connected, hdn]
    simp [hv]

/-- Witness for night_classification_offline on the night block
regsNight, whose decoded 50 V is below the 100 V night threshold. -/
theorem night_classification_offline_witness :
    decode_legacy regsNight = some sampleNight ∧
    sampleNight.ac_voltage < 100 ∧
    ((detect_night (some sampleNight.ac_voltage) true).2.2
       = decide (sampleNight.ac_voltage < 100) ∧
     ((pollCycle 300 initialState none 0 (some regsNight)).1.inverter_connected
        = true ↔ ¬ sampleNight.ac_voltage < 100) ∧
     (sampleNight.ac_voltage < 100 →
       (pollCycle 300 initialState none 0 (some regsNight)).1.dq_text
         = "OFFLINE")) :=
  ⟨decode_regsNight, by norm_num [sampleNight],
   night_classification_offline 300 initialState none 0 regsNight
     sampleNight decode_regsNight⟩

/-- Claim C9, counterexample.  The claim states that save_state writes
to a temporary file before replacing the previous snapshot, so a crash
during save can never leave a half-written file as the surviving state.
The trace contains no rename at all, and its first operation opens
STATE_PATH itself in truncating write mode: a crash right after that
step leaves an empty file at STATE_PATH, which is neither the previous
snapshot nor the new one. -/
theorem save_state_no_temp_file :
    (∀ op ∈ save_state_ops "new", op.isRename = false) ∧
    applyOps ((save_state_ops "new").take 1)
      (fun q => if q = STATE_PATH then some "old" else none) STATE_PATH
      = some "" ∧
    (some "" ≠ (some "old" : Option String)) ∧
    (some "" ≠ (some "new" : Option String)) := by
  refine ⟨by decide, ?_, by decide, by decide⟩
  show applyOp (fun q => if q = STATE_PATH then some "old" else none)
    (.openTrunc STATE_PATH) STATE_PATH = some ""
  simp [applyOp]

/-- Claim C9, amended.  save_state serializes directly to the snapshot
path with write, flush and fsync (no temporary file and no rename), so a
completed save leaves the new payload on disk and touches no other path,
but a crash part-way can leave a truncated file; any save failure is
swallowed after logging a warning: the in-memory state is untouched, the
poll cycle continues, and the prior on-disk state survives only when the
failure precedes the first write operation. -/
theorem save_state_amended (payload : String) (fs : Fs) (k : ℕ)
    (st : DashState) :
    (∀ op ∈ save_state_ops payload,
      op.isRename = false ∧ FsOp.target op = STATE_PATH) ∧
    applyOps (save_state_ops payload) fs STATE_PATH = some payload ∧
    (∀ q : String, q ≠ STATE_PATH →
      applyOps (save_state_ops payload) fs q = fs q) ∧
    (pollPersistStep st payload (some k) fs).1 = st ∧
    (save_state_run payload (some k) fs).2 = true ∧
    (save_state_run payload (some 0) fs).1 = fs := by
  refine ⟨?_, ?_, ?_, rfl, rfl, rfl⟩
  · intro op hop
    simp only [save_state_ops, List.mem_cons, List.not_mem_nil,
      or_false] at hop
    rcases hop with h | h | h | h <;> subst h <;> exact ⟨rfl, rfl⟩
  · simp [applyOps, save_state_ops, applyOp]
  · intro q hq
    simp [applyOps, save_state_ops, applyOp, hq]

/-- Witness for save_state_amended with payload "x" over an empty file
system, interrupted after one operation. -/
theorem save_state_amended_witness :
    (∀ op ∈ save_state_ops "x",
      op.isRename = false ∧ FsOp.target op = STATE_PATH) ∧
    applyOps (save_state_ops "x") (fun _ => none) STATE_PATH = some "x" ∧
    (∀ q : String, q ≠ STATE_PATH →
      applyOps (save_state_ops "x") (fun _ => none) q = none) ∧
    (pollPersistStep initialState "x" (some 1) (fun _ => none)).1
      = initialState ∧
    (save_state_run "x" (some 1) (fun _ => none)).2 = true ∧
    (save_state_run "x" (some 0) (fun _ => none)).1 = (fun _ => none) :=
  save_state_amended "x" (fun _ => none) 1 initialState
